import Mathlib

/-!
Verification of the Agent-Universal routing and tool-augmented answering core.

This file shallowly embeds the control flow of the repository's supervisor
node (`src/nodes/supervisor.py`), the expert nodes
(`src/nodes/base_expert.py`, `src/nodes/legal_expert.py`), the knowledge
search tool (`src/tools/action_search_tool.py`), the retrieval client
(`src/tools/action_internal/client.py`) and the XML document parser
(`src/tools/action_internal/xml_parser.py`).

Modelling conventions:
* Python strings are Lean `String`s; slicing `s[:n]` is modelled at the
  character level (`List.take` on `String.data`), matching Python's
  code-point semantics for the lengths involved.
* Language-model calls, prompt fetching, HTTP requests and the opaque
  regex/HTML text transformations of external libraries are modelled as
  explicit environment parameters; a fallible step returns `Except`.
  Quantifying theorems over these environments captures "for every outcome
  of the collaborator".
* A Python `try/except` block is a `match` on the `Except` value of the
  embedded body; the side-effect-only logging/telemetry blocks of the
  source (which alter no returned state) are omitted.
-/

/-- Message roles: `HumanMessage`, `AIMessage`, `ToolMessage` of the source. -/
inductive MsgRole where
  | user
  | assistant
  | tool
deriving DecidableEq, Repr

/-- A conversation message: role plus content text (`BaseMessage`). -/
structure Msg where
  role : MsgRole
  content : String
deriving DecidableEq, Repr

/-- The graph state (`AgentState` in `src/state.py`): message history;
the routing pointer and search artefacts live in the node updates. -/
structure AgentState where
  messages : List Msg
deriving DecidableEq, Repr

/-- One document of the structured search results carried by the tool
(`{"title": ..., "url": ..., "content": ...}` entries built in `_arun`). -/
structure SearchDoc where
  title : String
  url : Option String
  content : String
deriving DecidableEq, Repr

/-- A partial state update returned by a graph node.  The Python nodes
return dicts; a key that is absent from the returned dict is `none` here.
`AgentState` in `src/state.py` declares exactly the keys `messages`,
`next` and `search_results`. -/
structure StateUpdate where
  messages : List Msg := []
  next : Option String := none
  search_results : Option (List (String × List SearchDoc)) := none
deriving DecidableEq, Repr

/-- Character-level model of Python string slicing `s[:n]`. -/
def take_chars (n : Nat) (s : String) : String :=
  String.mk (s.data.take n)

/-- Python `str(x)` applied to an optional string (`str(None) = "None"`),
as it happens inside f-string URL building in the client. -/
def opt_str (o : Option String) : String :=
  match o with
  | some s => s
  | none => "None"

/-- Whether `pat` is a prefix of `l` (plain recursion, used by the
substring test below). -/
def list_starts : List Char → List Char → Bool
  | [], _ => true
  | _ :: _, [] => false
  | p :: ps, c :: cs => p = c && list_starts ps cs

/-- Whether `pat` occurs as a contiguous sublist of `l`: the model of the
Python substring test `pat in s`. -/
def list_has_sub (pat : List Char) : List Char → Bool
  | [] => list_starts pat []
  | c :: cs => list_starts pat (c :: cs) || list_has_sub pat cs

/-- Python's `pat in s` on strings. -/
def str_contains (s pat : String) : Bool :=
  list_has_sub pat.data s.data

/-- Python truthiness of an optional string (`None` and `""` are falsy). -/
def content_truthy (c : Option String) : Bool :=
  match c with
  | some s => s != ""
  | none => false

/-- Unwrap an optional content string (used only under a truthiness check). -/
def content_or_empty (c : Option String) : String :=
  match c with
  | some s => s
  | none => ""

/-!  Supervisor node (`src/nodes/supervisor.py`). -/

/-- The `RouteResponse` structured-output schema of the supervisor:
`next: Literal["LegalExpert", "FINISH"]`. -/
inductive RouteNext where
  | legalExpert
  | finish
deriving DecidableEq, Repr

/-- The string value carried by `RouteResponse.next`. -/
def route_next_to_string (r : RouteNext) : String :=
  match r with
  | .legalExpert => "LegalExpert"
  | .finish => "FINISH"

/-- Collaborators of `supervisor_node`: the prompt/config provider
(`get_prompt_data`, including LLM construction) and the structured LLM
call, each of which may raise. -/
structure SupervisorEnv where
  promptData : Except String String
  llm : String → Except String RouteNext

/-- Prompt used when there is no message to analyse. -/
def no_messages_prompt (system_prompt : String) : String :=
  system_prompt ++ "\n\nНет сообщений для анализа. Завершить диалог."

/-- The analysis prompt f-string of `supervisor_node` (lines 129-148). -/
def mk_analysis_prompt (system_prompt last_user_message : String) : String :=
  "\n" ++ system_prompt ++
  "\n\nПроанализируй последний запрос пользователя: \"" ++ last_user_message ++
  "\"\n\nОпредели, нужна ли помощь LegalExpert или можно завершить диалог.\n\nКритерии для LegalExpert:\n- Вопросы о законах, статьях, кодексах РФ\n- Юридические консультации\n- Правовые процедуры\n- Налогообложение\n- Договоры и сделки\n\nКритерии для FINISH:\n- Общие вопросы\n- Благодарности\n- Уже получен полный ответ от LegalExpert\n- Вопросы не по теме права\n"

/-- The reversed-history scan of `supervisor_node` (lines 122-126): the
most recent message whose content is truthy, regardless of its role. -/
def last_content_message (messages : List Msg) : Option Msg :=
  messages.reverse.find? (fun m => m.content != "")

/-- The decision part of the `try` block of `supervisor_node`
(lines 107-155): fetch the prompt, build the analysis prompt and obtain the
structured `RouteResponse` from the model. -/
def supervisor_decide (env : SupervisorEnv) (state : AgentState) : Except String RouteNext := do
  let system_prompt ← env.promptData
  let messages := state.messages
  let analysis_prompt :=
    if messages.isEmpty then no_messages_prompt system_prompt
    else
      match last_content_message messages with
      | some m => mk_analysis_prompt system_prompt m.content
      | none => no_messages_prompt system_prompt
  env.llm analysis_prompt

/-- Body of the `try` block of `supervisor_node` (lines 107-160),
returning the routing value `response.next`. -/
def supervisor_body (env : SupervisorEnv) (state : AgentState) : Except String String :=
  (supervisor_decide env state).map route_next_to_string

/-- The `supervisor_node` function: the `try` body, with the
`except` handler returning `{"next": "FINISH"}`. -/
def supervisor_node (env : SupervisorEnv) (state : AgentState) : StateUpdate :=
  match supervisor_body env state with
  | .ok nxt => { next := some nxt }
  | .error _ => { next := some "FINISH" }

/-- Targets of the conditional edge from the supervisor in `src/graph.py`. -/
inductive RouteTarget where
  | legal_expert
  | accounting_expert
  | end_
deriving DecidableEq, Repr

/-- The `route_supervisor` conditional-edge function of `src/graph.py`
(lines 30-48), reading `state.get("next", "FINISH")`. -/
def route_supervisor (next? : Option String) : RouteTarget :=
  match next? with
  | some nxt =>
      if nxt = "LegalExpert" then .legal_expert
      else if nxt = "AccountingExpert" then .accounting_expert
      else .end_
  | none => .end_

/-- Environment for the C1 counterexample: the prompt provider succeeds and
the model answers `LegalExpert` to every prompt. -/
def c1_env : SupervisorEnv :=
  { promptData := .ok "SYS",
    llm := fun _ => .ok .legalExpert }

/-- Conversation whose most recent message is assistant-authored. -/
def c1_state : AgentState :=
  { messages := [⟨.user, "Какой срок уплаты НДС?"⟩, ⟨.assistant, "Срок уплаты НДС - 28 число."⟩] }

/-- C1 counterexample: a conversation state whose most recent message is an
assistant message on which the supervisor routes to `LegalExpert`, not
`FINISH`, because `supervisor_node` has no assistant-last short-circuit: it
always consults the language model, and the model's decision is returned. -/
theorem C1_counterexample :
    c1_state.messages.getLast? = some ⟨.assistant, "Срок уплаты НДС - 28 число."⟩ ∧
    (supervisor_node c1_env c1_state).next = some "LegalExpert" ∧
    (supervisor_node c1_env c1_state).next ≠ some "FINISH" := by
  refine ⟨rfl, rfl, ?_⟩
  decide

/-- C1 amended: for a conversation state whose most recent content-bearing
message is assistant-authored, the supervisor relies on the language-model
call: when the prompt fetch and the structured model call succeed, the
returned route is exactly the model's decision (so it is `FINISH` only when
the model says so, or on an exception). -/
theorem C1_amended (env : SupervisorEnv) (state : AgentState) (m : Msg)
    (p : String) (r : RouteNext)
    (hlast : last_content_message state.messages = some m)
    (_hrole : m.role = .assistant)
    (hne : state.messages ≠ [])
    (hp : env.promptData = .ok p)
    (hllm : env.llm (mk_analysis_prompt p m.content) = .ok r) :
    (supervisor_node env state).next = some (route_next_to_string r) := by
  have hempty : state.messages.isEmpty = false := by
    cases hm : state.messages with
    | nil => exact absurd hm hne
    | cons a l => rfl
  simp [supervisor_node, supervisor_body, supervisor_decide, hempty, hlast,
    hp, hllm, Bind.bind, Except.bind, Except.map]

/-- Witness for the amended C1 theorem at the concrete counterexample
state and environment. -/
theorem C1_amended_witness :
    (supervisor_node c1_env c1_state).next = some (route_next_to_string .legalExpert) := by
  exact C1_amended c1_env c1_state ⟨.assistant, "Срок уплаты НДС - 28 число."⟩
    "SYS" .legalExpert rfl rfl (by decide) rfl rfl

/-- C10: the supervisor's routing value is always `LegalExpert` or `FINISH`
(the structured-output schema on success, the FINISH fallback on any
exception), so the conditional edge computed from the supervisor's update
never selects the accounting expert node. -/
theorem C10_supervisor_route_closed (env : SupervisorEnv) (state : AgentState) :
    ((supervisor_node env state).next = some "LegalExpert" ∨
      (supervisor_node env state).next = some "FINISH") ∧
    route_supervisor (supervisor_node env state).next ≠ RouteTarget.accounting_expert := by
  cases h : supervisor_decide env state with
  | ok r =>
      cases r with
      | legalExpert =>
          refine ⟨Or.inl ?_, ?_⟩ <;>
            simp [supervisor_node, supervisor_body, h, Except.map,
              route_next_to_string, route_supervisor]
      | finish =>
          refine ⟨Or.inr ?_, ?_⟩ <;>
            simp [supervisor_node, supervisor_body, h, Except.map,
              route_next_to_string, route_supervisor]
  | error e =>
      refine ⟨Or.inr ?_, ?_⟩ <;>
        simp [supervisor_node, supervisor_body, h, Except.map, route_supervisor]

/-!  Expert nodes (`src/nodes/base_expert.py`, `src/nodes/legal_expert.py`). -/

/-- The `action` literal of the experts' structured output. -/
inductive ActionKind where
  | call_tool
  | final_answer
deriving DecidableEq, Repr

/-- `ToolArgs` of `base_expert.py`: optional queries, limit and query. -/
structure ToolArgs where
  queries : Option (List String) := none
  limit : Option Nat := some 3
  query : Option String := none
deriving DecidableEq, Repr

/-- `ToolRequest` of the accounting expert, also covering the generic
`response.tool` shape consumed by `execute_expert_node`. -/
structure ToolRequest where
  tool_name : String
  tool_args : ToolArgs
deriving DecidableEq, Repr

/-- The `AgentAction` structured response consumed by
`execute_expert_node` (action, optional tool request, content and
references). -/
structure AgentActionR where
  action : ActionKind
  tool : Option ToolRequest := none
  content : Option String := none
  references : Option (List String) := none
deriving DecidableEq, Repr

/-- Model of a bound tool object: its (fallible) `ainvoke`/`invoke`
call, whether it exposes `get_last_search_results`, and the structured
results that call would return after an invocation with given args. -/
structure ToolSim where
  invoke : ToolArgs → Except String String
  hasLastSearchResults : Bool
  lastResults : ToolArgs → Option (List (String × List SearchDoc))

/-- Collaborators of `execute_expert_node`: prompt provider, structured
LLM, and the expert's `tools_map`. -/
structure ExpertEnv where
  promptData : Except String String
  llm : List Msg → Except String AgentActionR
  tools : String → Option ToolSim

/-- The scan of `base_expert.py` lines 38-42: most recent `HumanMessage`
with truthy content. -/
def last_human_content (messages : List Msg) : Option String :=
  (messages.reverse.find? (fun m => m.role == .user && m.content != "")).map (fun m => m.content)

/-- The search-evidence check of `base_expert.py` lines 66-71: some
`HumanMessage` in history contains both the tool-result marker and the
search tool name. -/
def has_search_marker (messages : List Msg) : Bool :=
  messages.any (fun m =>
    m.role == .user && m.content != "" &&
    str_contains m.content "Результат выполнения инструмента" &&
    str_contains m.content "internal_knowledge_search")

/-- Rendering of one material in the grounding prompt
(`base_expert.py` lines 146-151). -/
def render_doc (idx : Nat) (d : SearchDoc) : String :=
  "\nМатериал " ++ toString idx ++ ":" ++
  "\n  Наименование: " ++ d.title ++
  "\n  URL: " ++ opt_str d.url ++
  "\n  Содержание:\n" ++ take_chars 2000 d.content ++ "..."

/-- Rendering of the retained structured materials, grouped by query
(`base_expert.py` lines 141-152). -/
def render_materials (sr : List (String × List SearchDoc)) : String :=
  String.intercalate "\n"
    (sr.flatMap (fun qd =>
      ("\nПоисковый запрос: " ++ qd.1) ::
        (qd.2.enum.map (fun p => render_doc (p.1 + 1) p.2))))

/-- The `search_materials_text` computation: guarded by
`hasattr(tool, 'get_last_search_results')` and the truthiness of the
returned structured results. -/
def materials_text_of (tool : ToolSim) (args : ToolArgs) : String :=
  if tool.hasLastSearchResults then
    match tool.lastResults args with
    | some sr => if sr ≠ [] then render_materials sr else ""
    | none => ""
  else ""

/-- The augmented system prompt of `base_expert.py` lines 157-165 and
293-301. -/
def grounded_prompt (system_prompt search_materials_text : String) : String :=
  system_prompt ++
  "\n\nНАЙДЕННЫЕ МАТЕРИАЛЫ ИЗ ВНУТРЕННЕЙ БАЗЫ ЗНАНИЙ:\n" ++ search_materials_text ++
  "\n\nКРИТИЧЕСКИ ВАЖНО: Твой ответ должен строиться СТРОГО на основе этих найденных материалов. \nИспользуй ТОЛЬКО информацию из материалов выше. Запрещено добавлять информацию, которой нет в найденных материалах.\nВ поле \x27references\x27 укажи ТОЛЬКО те материалы, которые реально использованы в ответе (укажи наименования из раздела \"Наименование\" выше).\n"

/-- The tool-result follow-up message of `base_expert.py`
(lines 168-170 and 303-305). -/
def tool_result_prompt (tool_name tool_result : String) : String :=
  "Результат выполнения инструмента " ++ tool_name ++ ":\n" ++ tool_result ++
  "\n\nКРИТИЧЕСКИ ВАЖНО: Теперь дай финальный ответ, используя СТРОГО ТОЛЬКО информацию из результатов поиска выше. Запрещено добавлять информацию, которой нет в найденных материалах. В поле \x27references\x27 укажи ТОЛЬКО те материалы, которые реально использованы в ответе."

/-- Appending the references list to the answer text
(`base_expert.py` lines 178-180, 313-315). -/
def append_references (content : String) (references : Option (List String)) : String :=
  match references with
  | some rs =>
      if rs ≠ [] then
        content ++ "\n\nИспользованные материалы:\n" ++
          String.intercalate "\n" (rs.map (fun r => "- " ++ r))
      else content
  | none => content

/-- Messages produced from the second (grounded) model response
(`base_expert.py` lines 176-183 and 311-319). -/
def final_messages_of (final_response : AgentActionR) : List Msg :=
  if content_truthy final_response.content then
    [⟨.assistant, append_references (content_or_empty final_response.content) final_response.references⟩]
  else
    [⟨.assistant, "Извините, не удалось сформировать ответ после поиска."⟩]

/-- The inner `try` of the forced tool call (`base_expert.py`
lines 87-187): invoke the search tool, ground the prompt with the
structured materials and ask the model for the final answer. -/
def forced_attempt (env : ExpertEnv) (system_prompt : String) (messages : List Msg)
    (search_query : String) (tool : ToolSim) : Except String (List Msg) := do
  let tool_args : ToolArgs := { queries := some [search_query], limit := some 3, query := none }
  let tool_result ← tool.invoke tool_args
  let search_materials_text := materials_text_of tool tool_args
  let updated_system_prompt :=
    if search_materials_text != "" then grounded_prompt system_prompt search_materials_text
    else system_prompt
  let tool_result_message : Msg := ⟨.user, tool_result_prompt "internal_knowledge_search" tool_result⟩
  let final_response ← env.llm (⟨.user, updated_system_prompt⟩ :: messages ++ [tool_result_message])
  let _ := tool_result
  pure (final_messages_of final_response)

/-- The forced tool call with its local exception handler
(`base_expert.py` lines 188-193). -/
def forced_tool_call (env : ExpertEnv) (system_prompt : String) (messages : List Msg)
    (search_query : String) (tool : ToolSim) : List Msg :=
  match forced_attempt env system_prompt messages search_query tool with
  | .ok ms => ms
  | .error e => [⟨.assistant, "Ошибка при выполнении поиска: " ++ e⟩]

/-- The guard of `base_expert.py` lines 74-96: a `final_answer` without
prior search evidence is overridden to a forced tool call, provided a
truthy last user message exists and the search tool is bound; otherwise
the code falls through to the ordinary dispatch. -/
def forced_branch (env : ExpertEnv) (system_prompt : String) (messages : List Msg)
    (last_user_message : Option String) (response : AgentActionR)
    (has_search_results : Bool) : Option (List Msg) :=
  if response.action == .final_answer && !has_search_results then
    match last_user_message with
    | some lu =>
        match env.tools "internal_knowledge_search" with
        | some tool => some (forced_tool_call env system_prompt messages (take_chars 200 lu) tool)
        | none => none
    | none => none
  else none

/-- The `call_tool` branch of `execute_expert_node` (lines 197-319):
resolve the tool (unknown name becomes an error string), invoke it with
its own exception-to-string handler, ground the prompt with the
structured materials and ask the model for the final answer.  The second
model call is outside any inner handler and may raise. -/
def call_tool_branch (env : ExpertEnv) (system_prompt : String) (messages : List Msg)
    (tr : ToolRequest) : Except String (List Msg) := do
  let tool? := env.tools tr.tool_name
  let tool_result :=
    match tool? with
    | none => "Error: Tool \x27" ++ tr.tool_name ++ "\x27 not found."
    | some tool =>
        match tool.invoke tr.tool_args with
        | .ok r => r
        | .error e => "Error executing tool \x27" ++ tr.tool_name ++ "\x27: " ++ e
  let search_materials_text :=
    match tool? with
    | some tool =>
        if str_contains tr.tool_name "search" then materials_text_of tool tr.tool_args else ""
    | none => ""
  let updated_system_prompt :=
    if search_materials_text != "" then grounded_prompt system_prompt search_materials_text
    else system_prompt
  let tool_result_message : Msg := ⟨.user, tool_result_prompt tr.tool_name tool_result⟩
  let final_response ← env.llm (⟨.user, updated_system_prompt⟩ :: messages ++ [tool_result_message])
  pure (final_messages_of final_response)

/-- Body of the `try` block of `execute_expert_node`
(`base_expert.py` lines 35-332), producing the new messages. -/
def execute_expert_body (env : ExpertEnv) (state : AgentState) : Except String (List Msg) := do
  let messages := state.messages
  let last_user_message := last_human_content messages
  let system_prompt ← env.promptData
  let response ← env.llm (⟨.user, system_prompt⟩ :: messages)
  let has_search_results := has_search_marker messages
  match forced_branch env system_prompt messages last_user_message response has_search_results with
  | some ms => pure ms
  | none =>
      if response.action == .call_tool && response.tool.isSome then
        match response.tool with
        | some tr => call_tool_branch env system_prompt messages tr
        | none => pure [⟨.assistant, "Извините, я не смог определить дальнейшие действия."⟩]
      else if response.action == .final_answer && content_truthy response.content then
        pure [⟨.assistant, append_references (content_or_empty response.content) response.references⟩]
      else
        pure [⟨.assistant, "Извините, я не смог определить дальнейшие действия."⟩]

/-- The apologetic message of the outer exception handler
(`base_expert.py` lines 334-342, `legal_expert.py` lines 188-196). -/
def expert_error_message (e : String) : String :=
  "Извините, произошла ошибка при обработке вашего запроса: " ++ e

/-- `execute_expert_node`: the `try` body with the outer handler; every
return path yields a `{"messages": ...}` update. -/
def execute_expert_node (env : ExpertEnv) (state : AgentState) : StateUpdate :=
  match execute_expert_body env state with
  | .ok ms => { messages := ms }
  | .error e => { messages := [⟨.assistant, expert_error_message e⟩] }

/-- The legal expert's `ToolRequest`: its `tool_args` is a raw
`Dict[str, Any]`, modelled as an association list. -/
structure LegalToolRequest where
  tool_name : String
  tool_args : List (String × String)
deriving DecidableEq, Repr

/-- The legal expert's `AgentAction` (no references field). -/
structure LegalAgentAction where
  action : ActionKind
  tool : Option LegalToolRequest := none
  content : Option String := none
deriving DecidableEq, Repr

/-- A tool bound in the legal expert's `tools_map`. -/
structure LegalToolSim where
  invoke : List (String × String) → Except String String

/-- Collaborators of `legal_expert_node`. -/
structure LegalEnv where
  promptData : Except String String
  llm : List Msg → Except String LegalAgentAction
  tools : String → Option LegalToolSim

/-- The tool-result follow-up message of `legal_expert.py` lines 155-157. -/
def legal_tool_result_prompt (tool_name tool_result : String) : String :=
  "Результат выполнения инструмента " ++ tool_name ++ ":\n" ++ tool_result ++
  "\n\nТеперь дай финальный ответ на основе этой информации."

/-- Body of the `try` block of `legal_expert_node`
(`legal_expert.py` lines 80-186).  Note: it has no final-answer guard —
a `final_answer` decision is returned directly, searched or not. -/
def legal_expert_body (env : LegalEnv) (state : AgentState) : Except String (List Msg) := do
  let messages := state.messages
  let system_prompt ← env.promptData
  let current_messages := ⟨MsgRole.user, system_prompt⟩ :: messages
  let response ← env.llm current_messages
  if response.action == .call_tool && response.tool.isSome then
    match response.tool with
    | some tr =>
        let tool_result :=
          match env.tools tr.tool_name with
          | none => "Error: Tool \x27" ++ tr.tool_name ++ "\x27 not found."
          | some tool =>
              match tool.invoke tr.tool_args with
              | .ok r => r
              | .error e => "Error executing tool \x27" ++ tr.tool_name ++ "\x27: " ++ e
        let tool_result_message : Msg := ⟨.user, legal_tool_result_prompt tr.tool_name tool_result⟩
        let next_step_messages := current_messages ++ [tool_result_message]
        let final_response ← env.llm next_step_messages
        if content_truthy final_response.content then
          pure [⟨.assistant, content_or_empty final_response.content⟩, ⟨.tool, tool_result⟩]
        else
          pure [⟨.assistant, "Извините, не удалось сформировать ответ после поиска."⟩]
    | none => pure [⟨.assistant, "Извините, я не смог определить дальнейшие действия."⟩]
  else if response.action == .final_answer && content_truthy response.content then
    pure [⟨.assistant, content_or_empty response.content⟩]
  else
    pure [⟨.assistant, "Извините, я не смог определить дальнейшие действия."⟩]

/-- `legal_expert_node`: the `try` body with the outer handler. -/
def legal_expert_node (env : LegalEnv) (state : AgentState) : StateUpdate :=
  match legal_expert_body env state with
  | .ok ms => { messages := ms }
  | .error e => { messages := [⟨.assistant, expert_error_message e⟩] }

/-- Legal-expert environment for the C2 counterexample: the model decides
`final_answer` with ungrounded content on every prompt. -/
def c2_env : LegalEnv :=
  { promptData := .ok "LEGALSYS",
    llm := fun _ => .ok { action := .final_answer, tool := none, content := some "НДС платить не нужно." },
    tools := fun _ => none }

/-- A fresh conversation with no search evidence in history. -/
def c2_state : AgentState := { messages := [⟨.user, "Нужно ли платить НДС при УСН?"⟩] }

/-- C2 counterexample: an Expert invocation (the legal expert node, the one
the supervisor routes to) in which the decided action is `final_answer`
and no search-evidence marker exists in history, yet the effective action
is not overridden to a tool call: the node returns exactly the ungrounded
final answer.  The guard exists only in `execute_expert_node`
(`base_expert.py`); `legal_expert_node` has no such guard. -/
theorem C2_counterexample :
    c2_env.llm (⟨.user, "LEGALSYS"⟩ :: c2_state.messages) =
      .ok { action := .final_answer, tool := none, content := some "НДС платить не нужно." } ∧
    has_search_marker c2_state.messages = false ∧
    legal_expert_node c2_env c2_state =
      { messages := [⟨.assistant, "НДС платить не нужно."⟩] } := by
  refine ⟨rfl, by decide, rfl⟩

/-- C2 amended: for every invocation of the shared base expert loop
(`execute_expert_node`, used by the accounting expert) in which the decided
action is `final_answer`, no search-evidence marker exists in history, a
truthy last user message exists and the internal knowledge search tool is
bound, the node takes the forced tool-call branch with the search query
synthesized from the first 200 characters of the user's last message. -/
theorem C2_amended (env : ExpertEnv) (state : AgentState) (p : String)
    (resp : AgentActionR) (lu : String) (tool : ToolSim)
    (hp : env.promptData = .ok p)
    (hllm : env.llm (⟨.user, p⟩ :: state.messages) = .ok resp)
    (hact : resp.action = .final_answer)
    (hmarker : has_search_marker state.messages = false)
    (hlu : last_human_content state.messages = some lu)
    (htool : env.tools "internal_knowledge_search" = some tool) :
    execute_expert_node env state =
      { messages := forced_tool_call env p state.messages (take_chars 200 lu) tool } := by
  simp [execute_expert_node, execute_expert_body, forced_branch, hp, hllm, hact,
    hmarker, hlu, htool, Bind.bind, Except.bind, Pure.pure, Except.pure]

/-- Base-expert environment for the C2 witness. -/
def c2w_tool : ToolSim :=
  { invoke := fun _ => .ok "RAW",
    hasLastSearchResults := true,
    lastResults := fun _ => none }

/-- Environment whose model decides an ungrounded `final_answer`. -/
def c2w_env : ExpertEnv :=
  { promptData := .ok "SYS",
    llm := fun _ => .ok { action := .final_answer, tool := none, content := some "Ответ без поиска.", references := none },
    tools := fun n => if n = "internal_knowledge_search" then some c2w_tool else none }

/-- State for the C2 witness. -/
def c2w_state : AgentState := { messages := [⟨.user, "Как платить НДС?"⟩] }

/-- Witness for the amended C2 theorem at a concrete invocation. -/
theorem C2_amended_witness :
    execute_expert_node c2w_env c2w_state =
      { messages := forced_tool_call c2w_env "SYS" c2w_state.messages
          (take_chars 200 "Как платить НДС?") c2w_tool } := by
  exact C2_amended c2w_env c2w_state "SYS"
    { action := .final_answer, tool := none, content := some "Ответ без поиска.", references := none }
    "Как платить НДС?" c2w_tool rfl rfl rfl (by decide) (by decide) rfl

/-- C3: no exception escapes a node boundary.  Each node is a total
function from state to state update; whenever the embedded `try` body
raises, the expert nodes return the single apologetic assistant message
and the supervisor returns `next = FINISH`. -/
theorem C3_node_boundaries_total :
    (∀ (env : ExpertEnv) (state : AgentState) (e : String),
        execute_expert_body env state = .error e →
        execute_expert_node env state = { messages := [⟨.assistant, expert_error_message e⟩] }) ∧
    (∀ (env : LegalEnv) (state : AgentState) (e : String),
        legal_expert_body env state = .error e →
        legal_expert_node env state = { messages := [⟨.assistant, expert_error_message e⟩] }) ∧
    (∀ (env : SupervisorEnv) (state : AgentState) (e : String),
        supervisor_body env state = .error e →
        supervisor_node env state = { next := some "FINISH" }) := by
  refine ⟨?_, ?_, ?_⟩ <;> intro env state e h <;>
    simp [execute_expert_node, legal_expert_node, supervisor_node, h]

/-- Expert environment whose prompt provider raises. -/
def c3_expert_env : ExpertEnv :=
  { promptData := .error "boom",
    llm := fun _ => .ok { action := .final_answer, tool := none, content := some "x", references := none },
    tools := fun _ => none }

/-- Legal environment whose prompt provider raises. -/
def c3_legal_env : LegalEnv :=
  { promptData := .error "boom",
    llm := fun _ => .ok { action := .final_answer, tool := none, content := some "x" },
    tools := fun _ => none }

/-- Supervisor environment whose prompt provider raises. -/
def c3_sup_env : SupervisorEnv :=
  { promptData := .error "boom", llm := fun _ => .ok .finish }

/-- State for the C3 witness. -/
def c3_state : AgentState := { messages := [⟨.user, "привет"⟩] }

/-- Witness for C3 at concrete raising environments. -/
theorem C3_witness :
    execute_expert_node c3_expert_env c3_state =
      { messages := [⟨.assistant, expert_error_message "boom"⟩] } ∧
    legal_expert_node c3_legal_env c3_state =
      { messages := [⟨.assistant, expert_error_message "boom"⟩] } ∧
    supervisor_node c3_sup_env c3_state = { next := some "FINISH" } :=
  ⟨C3_node_boundaries_total.1 c3_expert_env c3_state "boom" rfl,
   C3_node_boundaries_total.2.1 c3_legal_env c3_state "boom" rfl,
   C3_node_boundaries_total.2.2 c3_sup_env c3_state "boom" rfl⟩

/-- Tool arguments the model requests in the C6 counterexample. -/
def c6_args : ToolArgs := { queries := some ["вопрос"], limit := some 3, query := none }

/-- The `call_tool` decision of the C6 counterexample. -/
def c6_call_tool_action : AgentActionR :=
  { action := .call_tool, tool := some ⟨"internal_knowledge_search", c6_args⟩ }

/-- The grounded final answer of the C6 counterexample. -/
def c6_final_action : AgentActionR :=
  { action := .final_answer, content := some "Ответ по материалам." }

/-- Search tool that succeeds and retains structured materials. -/
def c6_tool : ToolSim :=
  { invoke := fun _ => .ok "RAW",
    hasLastSearchResults := true,
    lastResults := fun _ =>
      some [("вопрос", [⟨"Документ 1", some "https://example", "текст документа"⟩])] }

/-- Environment for C6: first model call decides the tool call, second
produces the final answer. -/
def c6_env : ExpertEnv :=
  { promptData := .ok "SYS",
    llm := fun msgs => if msgs.length ≤ 2 then .ok c6_call_tool_action else .ok c6_final_action,
    tools := fun n => if n = "internal_knowledge_search" then some c6_tool else none }

/-- State for C6. -/
def c6_state : AgentState := { messages := [⟨.user, "вопрос"⟩] }

/-- C6 counterexample: an Expert invocation that performed a search (the
decided action was `call_tool`, the tool ran and retained structured
materials), yet the returned state update does not carry the materials in
`search_results` — the update is only the new messages and its
`search_results` field is absent (`none`). -/
theorem C6_counterexample :
    c6_env.llm [⟨.user, "SYS"⟩, ⟨.user, "вопрос"⟩] = .ok c6_call_tool_action ∧
    c6_tool.lastResults c6_args ≠ none ∧
    execute_expert_node c6_env c6_state =
      { messages := [⟨.assistant, "Ответ по материалам."⟩] } ∧
    (execute_expert_node c6_env c6_state).search_results = none := by
  refine ⟨rfl, by decide, rfl, rfl⟩

/-- C6 amended: an expert invocation's state update contains only new
messages: the `search_results` field of the update is always `none` (the
structured materials live only inside the per-invocation tool object), and
the expert never writes the routing pointer. -/
theorem C6_amended (envE : ExpertEnv) (envL : LegalEnv) (state : AgentState) :
    (execute_expert_node envE state).search_results = none ∧
    (execute_expert_node envE state).next = none ∧
    (legal_expert_node envL state).search_results = none := by
  refine ⟨?_, ?_, ?_⟩
  · cases h : execute_expert_body envE state <;> simp [execute_expert_node, h]
  · cases h : execute_expert_body envE state <;> simp [execute_expert_node, h]
  · cases h : legal_expert_body envL state <;> simp [legal_expert_node, h]

/-!  Retrieval client (`src/tools/action_internal/client.py`). -/

/-- A JSON value (document bodies and API payloads). -/
inductive JVal where
  | jnull : JVal
  | jstr : String → JVal
  | jbool : Bool → JVal
  | jobj : List (String × JVal) → JVal
  | jarr : List JVal → JVal

/-- `SearchItem` of `schemas.py`: all fields optional, ids kept as
strings. Only the fields the embedded code reads are modelled. -/
structure SearchItemR where
  id : Option String := none
  moduleId : Option String := none
  url : Option String := none
  docName : Option String := none
  pubdivid : Option Int := none
deriving DecidableEq, Repr

/-- `SearchResult` of `schemas.py`: item plus fetched document or error. -/
structure SearchResultR where
  item : SearchItemR
  document : Option JVal := none
  error : Option String := none

/-- An HTTP response as observed by the client: status, content-type
header, body text and the JSON value the body would parse to (parsing the
body may itself fail). -/
structure HttpResponse where
  statusOk : Bool
  contentType : String
  bodyText : String
  jsonBody : Except String JVal

/-- The substring check `"application/json" in ct`. -/
def json_content_type (ct : String) : Bool :=
  str_contains ct "application/json"

/-- The typed fetch-error message raised on a wrong content type
(including the 300-character snippet with newlines replaced by spaces). -/
def unexpected_ct_error (resp : HttpResponse) : String :=
  "Unexpected content-type: " ++ resp.contentType ++ ". Snippet: \x27" ++
    String.mk ((resp.bodyText.data.take 300).map (fun c => if c = '\n' then ' ' else c)) ++ "\x27"

/-- The shared fetch block of `_search_pages.fetch_page` (lines 69-78) and
both arms of `_fetch_docs.fetch_one` (lines 102-132): raise for a bad
status, then raise a typed error if the content type is not JSON, and only
then parse the body. -/
def fetch_json (resp : HttpResponse) : Except String JVal :=
  if resp.statusOk then
    if json_content_type resp.contentType then resp.jsonBody
    else .error (unexpected_ct_error resp)
  else .error "HTTPStatusError"

/-- `_build_doc_url` (line 50-51). -/
def build_doc_url (base_doc_url module_id document_id : String) : String :=
  base_doc_url ++ "?moduleId=" ++ module_id ++ "&documentId=" ++ document_id ++ "&locale=ru"

/-- `_build_internal_gateway_url` (line 53-56). -/
def build_internal_gateway_url (gw_url module_id document_id : String) : String :=
  gw_url ++ "?PubId=9&ModuleId=" ++ module_id ++ "&Id=" ++ document_id

/-- The URL `fetch_one` requests for an item, routed by `pubdivid`
(`client.py` lines 96-118). -/
def doc_url_for (gw_url base_doc_url : String) (item : SearchItemR) : String :=
  if item.pubdivid == some 3 || item.pubdivid == some 13 then
    build_internal_gateway_url gw_url (opt_str item.moduleId) (opt_str item.id)
  else
    build_doc_url base_doc_url (opt_str item.moduleId) (opt_str item.id)

/-- `fetch_one` of `_fetch_docs` (lines 89-132): the whole fetch/parse is
wrapped in a per-item `try`, so a failure becomes the `error` field of
that item's `SearchResult` and never propagates. -/
def fetch_one (gw_url base_doc_url : String) (http : String → HttpResponse)
    (item : SearchItemR) : SearchResultR :=
  let url := doc_url_for gw_url base_doc_url item
  let item' := { item with url := some url }
  match fetch_json (http url) with
  | .ok j => { item := item', document := some j, error := none }
  | .error e => { item := item', document := none, error := some e }

/-- `_fetch_docs` (lines 82-136): all items fetched concurrently and
joined — one result per item, in order. -/
def fetch_docs (gw_url base_doc_url : String) (http : String → HttpResponse)
    (items : List SearchItemR) : List SearchResultR :=
  items.map (fetch_one gw_url base_doc_url http)

/-- `_search_pages` (lines 58-80): zero pages yields an empty list;
otherwise pages 1..n are fetched and joined, and an exception from any
page fetch propagates (it is not caught here). -/
def search_pages (http : Nat → HttpResponse) (pages : Nat) : Except String (List JVal) :=
  if pages = 0 then .ok []
  else (List.range' 1 pages).mapM (fun p => fetch_json (http p))

/-!  Knowledge search tool (`src/tools/action_search_tool.py`). -/

/-- The fixed character budget `MAX_CHARS` of `_execute_single_search`. -/
def MAX_CHARS : Nat := 4000

/-- The truncation marker appended to over-budget document content. -/
def TRUNCATION_MARKER : String := "\n...[Content Truncated]..."

/-- The truncation step of `_execute_single_search` (lines 125-127):
`parsed_text[:MAX_CHARS] + marker` when the text exceeds the budget. -/
def truncate_content (s : String) : String :=
  if s.length > MAX_CHARS then String.mk (s.data.take MAX_CHARS) ++ TRUNCATION_MARKER
  else s

/-- A structured document of `_execute_single_search` (lines 129-135). -/
structure DocFull where
  title : String
  url : Option String
  content : String
  source_id : Option String
  module_id : Option String
deriving DecidableEq, Repr

/-- The two document parsers as seen by the tool.  The tool wraps every
parser call in `try/except` (lines 110-122), so each parse outcome is an
`Except`; `get_title` never raises and is total.  The JSON parser's
internals are an external collaborator here; the XML parser's concrete
control flow is modelled separately as `XmlDocumentParser.parse`. -/
structure ParserEnv where
  xmlGetTitle : JVal → String
  xmlParse : JVal → Except String String
  jsonParse : JVal → Except String String

/-- Conversion of one `SearchResult` into a structured document
(`_execute_single_search` lines 96-135): errored or empty fetches are
skipped, the parser is routed by `pubdivid`, a parse failure skips the
document, and the parsed text is truncated to the character budget. -/
def doc_of_result (env : ParserEnv) (res : SearchResultR) : Option DocFull :=
  if res.error.isSome then none
  else
    match res.document with
    | none => none
    | some doc =>
        let is_xml_gateway := res.item.pubdivid == some 3 || res.item.pubdivid == some 13
        let base_title :=
          match res.item.docName with
          | some s => if s ≠ "" then s else "Untitled"
          | none => "Untitled"
        let parsed : Except String (String × String) :=
          if is_xml_gateway then
            let xml_title := env.xmlGetTitle doc
            let title := if xml_title ≠ "" then xml_title else base_title
            (env.xmlParse doc).map (fun p => (title, p))
          else
            (env.jsonParse doc).map (fun p => (base_title, p))
        match parsed with
        | .error _ => none
        | .ok tp =>
            some { title := tp.1, url := res.item.url, content := truncate_content tp.2,
                   source_id := res.item.id, module_id := res.item.moduleId }

/-- The `{"query": ..., "documents": ...}` record returned by
`_execute_single_search`. -/
structure QueryResult where
  query : String
  documents : List DocFull
deriving DecidableEq, Repr

/-- `_execute_single_search` (lines 70-140) after the client call: only
the top `limit` results are considered, and the query is always recorded
(possibly with an empty document list). -/
def execute_single_search (env : ParserEnv) (query : String) (limit : Nat)
    (results : List SearchResultR) : QueryResult :=
  { query := query, documents := (results.take limit).filterMap (doc_of_result env) }

/-- The single-query fallback of `_arun` (`elif query:`). -/
def single_query (query? : Option String) : List String :=
  match query? with
  | some q => if q ≠ "" then [q] else []
  | none => []

/-- The query-list computation of `_arun` (lines 151-155): a truthy
`queries` wins, else a truthy `query`. -/
def compute_search_queries (query? : Option String) (queries? : Option (List String)) : List String :=
  match queries? with
  | some qs => if qs ≠ [] then qs else single_query query?
  | none => single_query query?

/-- Association-list lookup (model of Python `dict` access). -/
def dict_lookup {α : Type} (m : List (String × α)) (k : String) : Option α :=
  (m.find? (fun p => p.1 == k)).map (fun p => p.2)

/-- Insert-or-overwrite (model of Python `dict` assignment, which keeps
the first-insertion position on overwrite). -/
def dict_upsert {α : Type} (m : List (String × α)) (k : String) (v : α) : List (String × α) :=
  if (m.find? (fun p => p.1 == k)).isSome then
    m.map (fun p => if p.1 == k then (k, v) else p)
  else m ++ [(k, v)]

/-- The three fields kept per document in the structured result mapping
(`_arun` lines 202-209). -/
def doc_slim (d : DocFull) : SearchDoc :=
  { title := d.title, url := d.url, content := d.content }

/-- The structured-results computation of `_arun` (lines 142-211): missing
queries yield the error-string return; each query's search runs and its
failure aborts the whole call (caught by `_arun`'s outer handler, modelled
as the `Except.error` case); on success the mapping holds one entry per
query, built by dict assignment. -/
def arun_structured (env : ParserEnv) (query? : Option String)
    (queries? : Option (List String)) (limit? : Option Nat)
    (search : String → Except String (List SearchResultR)) :
    Except String (List (String × List SearchDoc)) :=
  let search_queries := compute_search_queries query? queries?
  if search_queries = [] then
    .error "Error: No search queries provided. Please provide \x27query\x27 or \x27queries\x27."
  else
    let effective_limit := limit?.getD 5
    (search_queries.mapM (fun q =>
        (search q).map (fun rs => execute_single_search env q effective_limit rs))).map
      (fun results_list =>
        results_list.foldl (fun m r => dict_upsert m r.query (r.documents.map doc_slim)) [])

/-!  XML document parser (`src/tools/action_internal/xml_parser.py`). -/

/-- An `xml.etree` element: text, children, tail text. -/
inductive XmlElement where
  | elem : Option String → List XmlElement → Option String → XmlElement

/-- The `tail` attribute of an element. -/
def XmlElement.tail_of : XmlElement → Option String
  | .elem _ _ t => t

/-- The `if value and value.strip(): parts.append(value.strip())` step of
`_extract_text_from_element`. -/
def stripped_opt (t : Option String) : List String :=
  match t with
  | some s => if s.trim ≠ "" then [s.trim] else []
  | none => []

mutual

/-- `_extract_text_from_element` (lines 100-117): direct text, then each
child's texts followed by the child's tail text. -/
def extract_text_from_element : XmlElement → List String
  | .elem text children _ => stripped_opt text ++ extract_children children

/-- Recursion of `_extract_text_from_element` over the child list. -/
def extract_children : List XmlElement → List String
  | [] => []
  | c :: rest =>
      extract_text_from_element c ++ stripped_opt (XmlElement.tail_of c) ++ extract_children rest

end

mutual

/-- Scanning state of the regex substitution `re.sub(r"<[^>]+>", " ", s)`
outside a candidate tag. -/
def strip_go : List Char → List Char
  | [] => []
  | c :: cs => if c = '<' then strip_in cs ['<'] else c :: strip_go cs

/-- Scanning state inside a candidate tag: `pend` holds the consumed
characters (reversed).  A `>` with at least one inner character closes the
match (replaced by a space); a `>` right after `<` is not a match; an
unclosed candidate is emitted literally. -/
def strip_in : List Char → List Char → List Char
  | [], pend => pend.reverse
  | c :: cs, pend =>
      if c = '>' then
        if pend.length ≥ 2 then ' ' :: strip_go cs
        else pend.reverse ++ ('>' :: strip_go cs)
      else strip_in cs (c :: pend)

end

/-- The whitespace-run collapse `re.sub(r"\s+", " ", s)` (state: whether
the previous character was part of a whitespace run). -/
def collapse_go : Bool → List Char → List Char
  | _, [] => []
  | prev_ws, c :: cs =>
      if c.isWhitespace then
        if prev_ws then collapse_go true cs else ' ' :: collapse_go true cs
      else c :: collapse_go false cs

/-- Collaborators of the XML parser: the HTML entity unescape and the
regex transformations `_normalize_html_tags` and `_clean_text` are total
string transformations whose content none of the verified control-flow
properties depend on; the `ET.fromstring` call may fail with a parse
error. -/
structure XmlEnv where
  unescape : String → String
  normalizeHtmlTags : String → String
  cleanText : String → String
  xmlFromString : String → Except String XmlElement

/-- `_extract_text_fallback` (lines 119-129): strip tags by regex, decode
entities again, collapse whitespace, strip and clean.  Never raises. -/
def XmlDocumentParser.extract_text_fallback (env : XmlEnv) (xml_content : String) : String :=
  let text := String.mk (strip_go xml_content.data)
  let text := env.unescape text
  let text := String.mk (collapse_go false text.data)
  env.cleanText text.trim

/-- Lookup in a JSON object (`key in d` plus `d[key]`). -/
def jlookup (j : JVal) (k : String) : Option JVal :=
  match j with
  | .jobj fields => (fields.find? (fun p => p.1 == k)).map (fun p => p.2)
  | _ => none

/-- Field extraction of `XmlDocumentParser.parse` (lines 27-41): unwrap
the optional `data` envelope and read `topTextXml`.  `none` covers the
missing-field warning path and also a non-string value (whose
`html.unescape` call would raise and be caught by the outer handler,
yielding the same empty-string result). -/
def top_text_xml_field (json_response : JVal) : Option String :=
  let data :=
    match jlookup json_response "data" with
    | some d => d
    | none => json_response
  match jlookup data "topTextXml" with
  | some (.jstr s) => some s
  | _ => none

/-- `XmlDocumentParser.parse` (lines 16-63): extract the embedded XML,
unescape, normalize, parse; on `ET.ParseError` fall back to the regex
extraction of the decoded text; missing/empty/ill-shaped input yields the
empty string (the outer `except` branch).  Total by construction: no
input makes it raise. -/
def XmlDocumentParser.parse (env : XmlEnv) (json_response : JVal) : String :=
  match top_text_xml_field json_response with
  | none => ""
  | some xml_content =>
      if xml_content = "" then ""
      else
        let decoded_xml := env.unescape xml_content
        let normalized_xml := env.normalizeHtmlTags decoded_xml
        match env.xmlFromString normalized_xml with
        | .ok root =>
            env.cleanText (String.intercalate " " (extract_text_from_element root))
        | .error _ => XmlDocumentParser.extract_text_fallback env decoded_xml

/-- Data of a string concatenation (used for length/suffix reasoning). -/
theorem string_append_data (a b : String) : (a ++ b).data = a.data ++ b.data := rfl

/-- Length of a string is the length of its character list. -/
theorem string_length_data (s : String) : s.length = s.data.length := rfl

/-- Truncation is the identity on content within the budget. -/
theorem truncate_content_short (s : String) (h : s.length ≤ MAX_CHARS) :
    truncate_content s = s := by
  unfold truncate_content
  rw [if_neg]
  omega

/-- Over-budget content is cut to the budget and the marker is appended. -/
theorem truncate_content_long (s : String) (h : MAX_CHARS < s.length) :
    (truncate_content s).length = MAX_CHARS + TRUNCATION_MARKER.length ∧
    TRUNCATION_MARKER.data <:+ (truncate_content s).data := by
  unfold truncate_content
  rw [if_pos h]
  constructor
  · rw [string_length_data, string_append_data]
    have h1 : (String.mk (s.data.take MAX_CHARS)).data = s.data.take MAX_CHARS := rfl
    rw [h1, List.length_append, List.length_take]
    have h2 : TRUNCATION_MARKER.data.length = TRUNCATION_MARKER.length := rfl
    have h3 : s.length = s.data.length := rfl
    omega
  · rw [string_append_data]
    exact List.suffix_append _ _

/-- The truncated content never exceeds budget plus marker length. -/
theorem truncate_content_le (s : String) :
    (truncate_content s).length ≤ MAX_CHARS + TRUNCATION_MARKER.length := by
  by_cases h : MAX_CHARS < s.length
  · exact le_of_eq (truncate_content_long s h).1
  · rw [truncate_content_short s (by omega)]
    omega

/-- A 4001-character source text. -/
def c4_big : String := String.mk (List.replicate 4001 'a')

/-- C4 counterexample: for a source text one character over the budget,
the returned content is the 4000-character cut plus the 26-character
marker, so its length (4026) is NOT ≤ the fixed character budget (4000);
the claim's bound fails on every truncated document. -/
theorem C4_counterexample :
    MAX_CHARS < c4_big.length ∧ ¬ ((truncate_content c4_big).length ≤ MAX_CHARS) := by
  have hlen : c4_big.length = 4001 := by
    show (List.replicate 4001 'a').length = 4001
    rw [List.length_replicate]
  have hlt : MAX_CHARS < c4_big.length := by
    rw [hlen]
    show 4000 < 4001
    omega
  refine ⟨hlt, ?_⟩
  have h2 := (truncate_content_long c4_big hlt).1
  rw [h2]
  have hm : TRUNCATION_MARKER.length = 26 := rfl
  rw [hm]
  show ¬ (4000 + 26 ≤ 4000)
  omega

/-- Every document of a single-search result carries truncated content. -/
theorem doc_of_result_content (env : ParserEnv) (res : SearchResultR) (d : DocFull)
    (h : doc_of_result env res = some d) : ∃ p, d.content = truncate_content p := by
  simp only [doc_of_result] at h
  split at h
  · exact absurd h (by simp)
  · split at h
    · exact absurd h (by simp)
    · split at h
      · exact absurd h (by simp)
      · rename_i tp heq
        obtain rfl := Option.some.inj h
        exact ⟨tp.2, rfl⟩

/-- C4 amended: every document returned by one search carries content
obtained by the truncation step, hence its length is at most the character
budget plus the marker length (4026), and whenever the content exceeds the
budget it ends with the truncation marker. -/
theorem C4_amended (env : ParserEnv) (q : String) (lim : Nat)
    (results : List SearchResultR) (d : DocFull)
    (hd : d ∈ (execute_single_search env q lim results).documents) :
    (∃ p, d.content = truncate_content p) ∧
    d.content.length ≤ MAX_CHARS + TRUNCATION_MARKER.length ∧
    (MAX_CHARS < d.content.length → TRUNCATION_MARKER.data <:+ d.content.data) := by
  simp only [execute_single_search, List.mem_filterMap] at hd
  obtain ⟨res, hres, hdoc⟩ := hd
  obtain ⟨p, hp⟩ := doc_of_result_content env res d hdoc
  refine ⟨⟨p, hp⟩, ?_, ?_⟩
  · rw [hp]; exact truncate_content_le p
  · intro hlong
    rw [hp] at hlong ⊢
    by_cases hps : MAX_CHARS < p.length
    · exact (truncate_content_long p hps).2
    · rw [truncate_content_short p (by omega)] at hlong
      omega

/-- Parser oracles for the C4 witness. -/
def c4w_env : ParserEnv :=
  { xmlGetTitle := fun _ => "Заголовок",
    xmlParse := fun _ => .ok "короткий текст",
    jsonParse := fun _ => .error "unused" }

/-- A successfully fetched gateway document. -/
def c4w_res : SearchResultR :=
  { item := { id := some "1", moduleId := some "2", url := some "https://d",
              docName := some "Имя", pubdivid := some 13 },
    document := some (.jobj []), error := none }

/-- The document the search returns for `c4w_res`. -/
def c4w_doc : DocFull :=
  { title := "Заголовок", url := some "https://d", content := "короткий текст",
    source_id := some "1", module_id := some "2" }

/-- Witness for the amended C4 theorem at a concrete returned document. -/
theorem C4_amended_witness :
    (∃ p, c4w_doc.content = truncate_content p) ∧
    c4w_doc.content.length ≤ MAX_CHARS + TRUNCATION_MARKER.length ∧
    (MAX_CHARS < c4w_doc.content.length → TRUNCATION_MARKER.data <:+ c4w_doc.content.data) := by
  exact C4_amended c4w_env "запрос" 3 [c4w_res] c4w_doc (by decide)

/-- C5: document fetches are isolated.  The batch returns one result per
item in order, each item's result depends only on its own fetch, a fetch
failure is recorded as the `error` field of that item's result (with no
document), and a successful fetch yields its document — so one failing
document never aborts the batch. -/
theorem C5_per_document_isolation (gw base : String) (http : String → HttpResponse)
    (items : List SearchItemR) :
    (fetch_docs gw base http items).length = items.length ∧
    (∀ i : Nat, (fetch_docs gw base http items)[i]? =
        (items[i]?).map (fetch_one gw base http)) ∧
    (∀ it e, fetch_json (http (doc_url_for gw base it)) = .error e →
        (fetch_one gw base http it).error = some e ∧
        (fetch_one gw base http it).document = none ∧
        (fetch_one gw base http it).item.id = it.id) ∧
    (∀ it j, fetch_json (http (doc_url_for gw base it)) = .ok j →
        (fetch_one gw base http it).error = none ∧
        (fetch_one gw base http it).document = some j ∧
        (fetch_one gw base http it).item.id = it.id) := by
  refine ⟨by simp [fetch_docs], fun i => by simp [fetch_docs], ?_, ?_⟩
  · intro it e h
    simp [fetch_one, h]
  · intro it j h
    simp [fetch_one, h]

/-- A response with a non-JSON content type. -/
def c5_bad_resp : HttpResponse :=
  { statusOk := true, contentType := "text/html", bodyText := "login page",
    jsonBody := .ok .jnull }

/-- A well-formed JSON response. -/
def c5_good_resp : HttpResponse :=
  { statusOk := true, contentType := "application/json", bodyText := "ok",
    jsonBody := .ok (.jobj []) }

/-- The failing gateway item of the C5 witness. -/
def c5_item : SearchItemR :=
  { id := some "22", moduleId := some "2", pubdivid := some 13 }

/-- HTTP oracle failing exactly on `c5_item`'s document URL. -/
def c5_http : String → HttpResponse :=
  fun url => if url = build_internal_gateway_url "GW" "2" "22" then c5_bad_resp else c5_good_resp

/-- Witness for C5 at a concretely failing document fetch. -/
theorem C5_witness :
    (fetch_one "GW" "DOC" c5_http c5_item).error = some (unexpected_ct_error c5_bad_resp) ∧
    (fetch_one "GW" "DOC" c5_http c5_item).document = none ∧
    (fetch_one "GW" "DOC" c5_http c5_item).item.id = c5_item.id :=
  (C5_per_document_isolation "GW" "DOC" c5_http [c5_item]).2.2.1 c5_item
    (unexpected_ct_error c5_bad_resp) rfl

/-- C7: `XmlDocumentParser.parse` is a total function with the documented
fallbacks: a missing or empty `topTextXml` field yields the empty string,
an XML parse failure yields the regex tag-stripping fallback on the
decoded text, and a successful parse yields the cleaned recursive text
extraction — no input raises. -/
theorem C7_parse_total (env : XmlEnv) (resp : JVal) :
    ((top_text_xml_field resp = none ∨ top_text_xml_field resp = some "") →
        XmlDocumentParser.parse env resp = "") ∧
    (∀ s, top_text_xml_field resp = some s → s ≠ "" →
        (∀ e, env.xmlFromString (env.normalizeHtmlTags (env.unescape s)) = .error e →
            XmlDocumentParser.parse env resp =
              XmlDocumentParser.extract_text_fallback env (env.unescape s)) ∧
        (∀ root, env.xmlFromString (env.normalizeHtmlTags (env.unescape s)) = .ok root →
            XmlDocumentParser.parse env resp =
              env.cleanText (String.intercalate " " (extract_text_from_element root)))) := by
  constructor
  · intro h
    rcases h with h | h <;> simp [XmlDocumentParser.parse, h]
  · intro s hs hne
    constructor
    · intro e he
      simp [XmlDocumentParser.parse, hs, hne, he]
    · intro root hroot
      simp [XmlDocumentParser.parse, hs, hne, hroot]

/-- Identity collaborators with a failing XML parser for the C7 witness. -/
def c7_env : XmlEnv :=
  { unescape := id, normalizeHtmlTags := id, cleanText := id,
    xmlFromString := fun _ => .error "ParseError" }

/-- A payload whose embedded XML is malformed. -/
def c7_resp : JVal := .jobj [("topTextXml", .jstr "<p>привет")]

/-- Witness for C7: on a malformed XML body the parser returns the regex
fallback extraction instead of raising. -/
theorem C7_witness :
    XmlDocumentParser.parse c7_env c7_resp =
      XmlDocumentParser.extract_text_fallback c7_env "<p>привет" := by
  exact ((C7_parse_total c7_env c7_resp).2 "<p>привет" rfl (by decide)).1 "ParseError" rfl

/-- C8: when a response's content type does not indicate JSON, the fetch
result is independent of the response body (the body is never parsed), a
good-status response yields exactly the typed content-type fetch error, a
document fetch records the failure on its result record, and a search-page
fetch propagates the error for the whole page batch. -/
theorem C8_content_type_check (resp : HttpResponse)
    (hct : json_content_type resp.contentType = false) :
    (∀ b, fetch_json { resp with jsonBody := b } = fetch_json resp) ∧
    (resp.statusOk = true → fetch_json resp = .error (unexpected_ct_error resp)) ∧
    (∀ gw base http item, http (doc_url_for gw base item) = resp →
        (fetch_one gw base http item).document = none ∧
        (fetch_one gw base http item).error ≠ none) ∧
    (∀ (http : Nat → HttpResponse) (pages : Nat), 1 ≤ pages → http 1 = resp →
        ∃ e, search_pages http pages = .error e) := by
  have herr : ∃ e0, fetch_json resp = .error e0 := by
    by_cases hs : resp.statusOk
    · exact ⟨unexpected_ct_error resp, by simp [fetch_json, hs, hct]⟩
    · exact ⟨"HTTPStatusError", by simp [fetch_json, hs]⟩
  obtain ⟨e0, he0⟩ := herr
  refine ⟨?_, ?_, ?_, ?_⟩
  · intro b
    by_cases hs : resp.statusOk <;> simp [fetch_json, hs, hct, unexpected_ct_error]
  · intro hs
    simp [fetch_json, hs, hct]
  · intro gw base http item hhttp
    simp [fetch_one, hhttp, he0]
  · intro http pages hpages hhttp
    refine ⟨e0, ?_⟩
    cases pages with
    | zero => omega
    | succ n =>
        have hrange : List.range' 1 (n + 1) = 1 :: List.range' 2 n := rfl
        have hsp : search_pages http (n + 1) =
            (List.range' 1 (n + 1)).mapM (fun p => fetch_json (http p)) := by
          simp [search_pages]
        rw [hsp, hrange, List.mapM_cons, hhttp, he0]
        rfl

/-- An HTML response for the C8 witness. -/
def c8_resp : HttpResponse :=
  { statusOk := true, contentType := "text/html; charset=utf-8", bodyText := "login",
    jsonBody := .ok .jnull }

/-- Witness for C8 at a concrete non-JSON response. -/
theorem C8_witness :
    fetch_json c8_resp = .error (unexpected_ct_error c8_resp) :=
  (C8_content_type_check c8_resp (by decide)).2.1 rfl

/-- A dictionary lookup succeeds exactly when some entry has the key. -/
theorem dict_lookup_isSome_iff {α : Type} (m : List (String × α)) (q : String) :
    (dict_lookup m q).isSome = true ↔ ∃ pr ∈ m, pr.1 = q := by
  simp [dict_lookup, List.find?_isSome]

/-- After an upsert, the upserted key is present. -/
theorem dict_upsert_lookup_self {α : Type} (m : List (String × α)) (k : String) (v : α) :
    (dict_lookup (dict_upsert m k v) k).isSome = true := by
  rw [dict_lookup_isSome_iff]
  unfold dict_upsert
  split
  · rename_i hfound
    have h2 : ∃ pr ∈ m, pr.1 = k := by
      have h3 := List.find?_isSome.mp hfound
      simpa using h3
    obtain ⟨pr, hmem, hkey⟩ := h2
    exact ⟨(k, v), List.mem_map.mpr ⟨pr, hmem, by simp [hkey]⟩, rfl⟩
  · exact ⟨(k, v), by simp, rfl⟩

/-- An upsert preserves the presence of every key. -/
theorem dict_upsert_lookup_preserve {α : Type} (m : List (String × α)) (k q : String) (v : α)
    (h : (dict_lookup m q).isSome = true) :
    (dict_lookup (dict_upsert m k v) q).isSome = true := by
  rw [dict_lookup_isSome_iff] at h ⊢
  obtain ⟨pr, hmem, hkey⟩ := h
  unfold dict_upsert
  split
  · by_cases hpk : (pr.1 == k) = true
    · refine ⟨(k, v), List.mem_map.mpr ⟨pr, hmem, by simp [hpk]⟩, ?_⟩
      have hk : pr.1 = k := by simpa using hpk
      rw [← hk, hkey]
    · exact ⟨pr, List.mem_map.mpr ⟨pr, hmem, by simp [hpk]⟩, hkey⟩
  · exact ⟨pr, by simp [hmem], hkey⟩

/-- Folding upserts over query results keeps every inserted (and every
pre-existing) key present. -/
theorem fold_upsert_lookup (rl : List QueryResult) (q : String) :
    ∀ (m0 : List (String × List SearchDoc)),
      ((∃ r ∈ rl, r.query = q) ∨ (dict_lookup m0 q).isSome = true) →
      (dict_lookup
          (rl.foldl (fun m r => dict_upsert m r.query (r.documents.map doc_slim)) m0) q).isSome
        = true := by
  induction rl with
  | nil =>
      intro m0 h
      rcases h with ⟨r, hr, _⟩ | h
      · simp at hr
      · simpa using h
  | cons r rest ih =>
      intro m0 h
      simp only [List.foldl_cons]
      apply ih
      rcases h with ⟨r', hr', hq⟩ | h
      · rcases List.mem_cons.mp hr' with heq | hmem
        · right
          rw [← hq, heq]
          exact dict_upsert_lookup_self m0 r.query (r.documents.map doc_slim)
        · left
          exact ⟨r', hmem, hq⟩
      · right
        exact dict_upsert_lookup_preserve m0 r.query q (r.documents.map doc_slim) h

/-- A successful `mapM` over the query list produces, for every query,
a result record with that query (each single search stamps its query). -/
theorem mapM_search_queries (env : ParserEnv) (lim : Nat)
    (search : String → Except String (List SearchResultR)) :
    ∀ (qs : List String) (rl : List QueryResult),
      qs.mapM (fun q => (search q).map (fun rs => execute_single_search env q lim rs)) = .ok rl →
      ∀ q ∈ qs, ∃ r ∈ rl, r.query = q := by
  intro qs
  induction qs with
  | nil =>
      intro rl h q hq
      simp at hq
  | cons a as ih =>
      intro rl h q hq
      rw [List.mapM_cons] at h
      cases hsa : search a with
      | error e =>
          rw [hsa] at h
          simp [Except.map, Bind.bind, Except.bind] at h
      | ok rs =>
          rw [hsa] at h
          cases hrest : as.mapM (fun q => (search q).map (fun rs => execute_single_search env q lim rs)) with
          | error e =>
              rw [hrest] at h
              simp [Except.map, Bind.bind, Except.bind] at h
          | ok rl' =>
              rw [hrest] at h
              simp only [Except.map, Bind.bind, Except.bind, Pure.pure, Except.pure] at h
              obtain rfl := Except.ok.inj h
              rcases List.mem_cons.mp hq with heq | hmem
              · exact ⟨execute_single_search env a lim rs, by simp, by rw [heq]; rfl⟩
              · obtain ⟨r, hr, hrq⟩ := ih rl' hrest q hmem
                exact ⟨r, by simp [hr], hrq⟩

/-- C9: whenever the knowledge search produces its structured result
mapping, every submitted query has an entry in the mapping — a query with
zero documents maps to an empty list rather than being omitted. -/
theorem C9_query_entry_present (env : ParserEnv) (query? : Option String)
    (queries? : Option (List String)) (limit? : Option Nat)
    (search : String → Except String (List SearchResultR))
    (m : List (String × List SearchDoc))
    (h : arun_structured env query? queries? limit? search = .ok m) :
    ∀ q ∈ compute_search_queries query? queries?, (dict_lookup m q).isSome = true := by
  intro q hq
  simp only [arun_structured] at h
  by_cases hc : compute_search_queries query? queries? = []
  · rw [if_pos hc] at h
    exact absurd h (by simp)
  · rw [if_neg hc] at h
    cases hmap : (compute_search_queries query? queries?).mapM
        (fun q => (search q).map (fun rs => execute_single_search env q (limit?.getD 5) rs)) with
    | error e =>
        rw [hmap] at h
        simp [Except.map] at h
    | ok rl =>
        rw [hmap] at h
        simp only [Except.map] at h
        obtain rfl := Except.ok.inj h
        obtain ⟨r, hr, hrq⟩ := mapM_search_queries env (limit?.getD 5) search _ rl hmap q hq
        exact fold_upsert_lookup rl q [] (Or.inl ⟨r, hr, hrq⟩)

/-- Parser oracles for the C9 witness. -/
def c9_parser_env : ParserEnv :=
  { xmlGetTitle := fun _ => "", xmlParse := fun _ => .ok "", jsonParse := fun _ => .ok "" }

/-- Witness for C9: a query whose search succeeds with zero results still
gets an entry (mapped to the empty document list). -/
theorem C9_witness :
    (dict_lookup [("срок уплаты НДС", ([] : List SearchDoc))] "срок уплаты НДС").isSome = true := by
  have h : arun_structured c9_parser_env none (some ["срок уплаты НДС"]) none (fun _ => .ok []) =
      .ok [("срок уплаты НДС", [])] := rfl
  exact C9_query_entry_present c9_parser_env none (some ["срок уплаты НДС"]) none
    (fun _ => .ok []) [("срок уплаты НДС", [])] h "срок уплаты НДС" (by decide)

/-- Supervisor environment for the C10 witness. -/
def c10_env : SupervisorEnv :=
  { promptData := .ok "SYS", llm := fun _ => .ok .finish }

/-- State for the C10 witness. -/
def c10_state : AgentState := { messages := [⟨.user, "Привет, кто ты?"⟩] }

/-- Witness for C10 at a concrete supervisor run. -/
theorem C10_witness :
    ((supervisor_node c10_env c10_state).next = some "LegalExpert" ∨
      (supervisor_node c10_env c10_state).next = some "FINISH") ∧
    route_supervisor (supervisor_node c10_env c10_state).next ≠ RouteTarget.accounting_expert :=
  C10_supervisor_route_closed c10_env c10_state
